import Mathlib

/-!
Verification of the grocery inventory management backend.

We give a shallow embedding of the stock-movement core of the backend:
the `Transaction.create_stock_in` / `Transaction.create_stock_out` helpers
(backend/models/transaction.py), the `stock_in` / `stock_out` route handlers
(backend/routes/transaction_routes.py), the derived product computations
`is_expired` / `is_low_stock` (backend/models/product.py), the reporting
aggregation `get_transaction_stats` (backend/routes/transaction_routes.py),
and the `validate_required_fields` helper (backend/utils/helpers.py).

Python integers are unbounded, so quantities and identifiers are `Int`.
Dates and timestamps are modelled as integers on an abstract timeline
(`datetime.utcnow` / `datetime.now().date()` become an explicit parameter).
A raised `ValueError` becomes `Except.error` carrying the message string.
The database session is modelled by explicit state passing: a route handler
receives the current product and ledger (list of committed transactions)
and returns the response together with the new product state and ledger.
-/

namespace Grocery

/-- The `products` table row, restricted to the fields the stock-movement
core reads or writes (backend/models/product.py). -/
structure Product where
  id : Int
  name : String
  sku : String
  quantity : Int
  expiry_date : Option Int
  deriving Repr, DecidableEq

/-- The `users` table row, restricted to the fields the stock-movement core
uses (attribution only). -/
structure User where
  id : Int
  username : String
  deriving Repr, DecidableEq

/-- The `transactions` table row (backend/models/transaction.py).  The
`type` field is the string `"IN"` or `"OUT"` exactly as in the source; the
`date` column's `datetime.utcnow` default is the `date` field, filled with
the current time at creation. -/
structure Transaction where
  product_id : Int
  user_id : Int
  type : String
  quantity : Int
  notes : Option String
  date : Int
  deriving Repr, DecidableEq

/-- `Transaction.create_stock_in` (backend/models/transaction.py, lines
68-102): rejects non-positive quantities with a `ValueError`, otherwise
builds the `IN` transaction and increments `product.quantity`.  The mutated
product is returned alongside the transaction (the Python code mutates the
`product` argument in place). -/
def Transaction.create_stock_in (product : Product) (quantity : Int)
    (user : User) (notes : Option String) (now : Int) :
    Except String (Transaction × Product) :=
  if quantity ≤ 0 then
    Except.error "Added Quantity must be positive for STOCK IN"
  else
    Except.ok
      (⟨product.id, user.id, "IN", quantity, notes, now⟩,
       ⟨product.id, product.name, product.sku, product.quantity + quantity,
        product.expiry_date⟩)

/-- `Transaction.create_stock_out` (backend/models/transaction.py, lines
104-154): rejects non-positive quantities, then rejects requests exceeding
the available stock with a `ValueError` whose message carries the available
and requested amounts, otherwise builds the `OUT` transaction and
decrements `product.quantity`. -/
def Transaction.create_stock_out (product : Product) (quantity : Int)
    (user : User) (notes : Option String) (now : Int) :
    Except String (Transaction × Product) :=
  if quantity ≤ 0 then
    Except.error "Quantity must be positive for STOCK OUT"
  else if product.quantity < quantity then
    Except.error ("Insufficient stock. Available: " ++ toString product.quantity
      ++ ", Requested: " ++ toString quantity)
  else
    Except.ok
      (⟨product.id, user.id, "OUT", quantity, notes, now⟩,
       ⟨product.id, product.name, product.sku, product.quantity - quantity,
        product.expiry_date⟩)

/-- The `stock_in` route handler (backend/routes/transaction_routes.py,
lines 101-170), after request parsing and lookups: it first rejects
`quantity <= 0` with the message `Quantity must be positive`, then calls
`Transaction.create_stock_in`; a `ValueError` becomes a 400 error response
with the exception's message and leaves the state untouched; on success the
transaction is added to the session and committed (appended to the ledger). -/
def stock_in (product : Product) (quantity : Int) (user : User)
    (notes : Option String) (now : Int) (ledger : List Transaction) :
    Except String Transaction × Product × List Transaction :=
  if quantity ≤ 0 then
    (Except.error "Quantity must be positive", product, ledger)
  else
    match Transaction.create_stock_in product quantity user notes now with
    | Except.error e => (Except.error e, product, ledger)
    | Except.ok (t, p) => (Except.ok t, p, ledger ++ [t])

/-- The `stock_out` route handler (backend/routes/transaction_routes.py,
lines 172-250), after request parsing and lookups: it rejects
`quantity <= 0`, then calls `Transaction.create_stock_out`; a `ValueError`
becomes a 400 error response and leaves the state untouched; on success the
transaction is committed and the response carries
`low_stock_warning = product.quantity <= 10` computed on the mutated
product (line 239, with the literal threshold 10). -/
def stock_out (product : Product) (quantity : Int) (user : User)
    (notes : Option String) (now : Int) (ledger : List Transaction) :
    Except String (Transaction × Bool) × Product × List Transaction :=
  if quantity ≤ 0 then
    (Except.error "Quantity must be positive", product, ledger)
  else
    match Transaction.create_stock_out product quantity user notes now with
    | Except.error e => (Except.error e, product, ledger)
    | Except.ok (t, p) =>
        (Except.ok (t, decide (p.quantity ≤ 10)), p, ledger ++ [t])

/-- `Product.is_expired` (backend/models/product.py, lines 35-45): `False`
when no expiry date is set, otherwise `expiry_date < datetime.now().date()`.
The current date is the explicit `today` parameter. -/
def Product.is_expired (p : Product) (today : Int) : Bool :=
  match p.expiry_date with
  | none => false
  | some d => decide (d < today)

/-- `Product.is_low_stock` (backend/models/product.py, lines 67-79):
`quantity <= threshold`, with the threshold a caller-supplied parameter
defaulting to 10 in the source. -/
def Product.is_low_stock (p : Product) (threshold : Int) : Bool :=
  decide (p.quantity ≤ threshold)

/-- The statistics record assembled by `get_transaction_stats`
(backend/routes/transaction_routes.py, lines 287-301). -/
structure TransactionStats where
  total_transactions : Nat
  stock_in_count : Nat
  stock_in_quantity : Int
  stock_out_count : Nat
  stock_out_quantity : Int
  deriving Repr, DecidableEq

/-- The `get_transaction_stats` route handler (backend/routes/
transaction_routes.py, lines 252-309): filters the ledger to transactions
with `from_date <= date <= to_date` (both inclusive), then counts and sums
the `IN` and `OUT` entries. -/
def get_transaction_stats (ledger : List Transaction)
    (from_date to_date : Int) : TransactionStats :=
  let transactions := ledger.filter
    (fun t => decide (from_date ≤ t.date) && decide (t.date ≤ to_date))
  let stock_in_count := (transactions.filter (fun t => t.type == "IN")).length
  let stock_out_count := (transactions.filter (fun t => t.type == "OUT")).length
  let stock_in_quantity :=
    ((transactions.filter (fun t => t.type == "IN")).map Transaction.quantity).sum
  let stock_out_quantity :=
    ((transactions.filter (fun t => t.type == "OUT")).map Transaction.quantity).sum
  ⟨transactions.length, stock_in_count, stock_in_quantity,
   stock_out_count, stock_out_quantity⟩

/-- A JSON value as it can appear in a parsed request body, restricted to
the shapes `validate_required_fields` distinguishes: `null`, strings and
numbers (the helper only ever compares a value against `None` and `''`). -/
inductive JValue where
  | null
  | str (s : String)
  | num (n : Int)
  deriving Repr, DecidableEq

/-- `validate_required_fields` (backend/utils/helpers.py, lines 55-84).
The request dictionary is an association list wrapped in `Option` (`none`
models `data is None`); `if not data` in Python is true for both `None` and
the empty dict.  A field is missing when it is not a key, its value is
`None`, or its value is the empty string. -/
def validate_required_fields (data : Option (List (String × JValue)))
    (required_fields : List String) : Bool × List String :=
  match data with
  | none => (false, required_fields)
  | some d =>
    if d.isEmpty then (false, required_fields)
    else
      let missing_fields := required_fields.filter (fun field =>
        match d.lookup field with
        | none => true
        | some v => v == JValue.null || v == JValue.str "")
      (missing_fields.isEmpty, missing_fields)

/-! ### Helper lemmas shared across the claims -/

/-- Unfolded success behaviour of the `stock_out` route handler. -/
theorem stock_out_success (p : Product) (q : Int) (u : User) (n : Option String)
    (now : Int) (l : List Transaction) (hq : 0 < q) (hle : q ≤ p.quantity) :
    stock_out p q u n now l =
      (Except.ok (⟨p.id, u.id, "OUT", q, n, now⟩, decide (p.quantity - q ≤ 10)),
       ⟨p.id, p.name, p.sku, p.quantity - q, p.expiry_date⟩,
       l ++ [⟨p.id, u.id, "OUT", q, n, now⟩]) := by
  have h1 : ¬ q ≤ 0 := not_le.mpr hq
  have h2 : ¬ p.quantity < q := not_lt.mpr hle
  simp [stock_out, Transaction.create_stock_out, h1, h2]

/-- Inversion of a successful `stock_out` call: the mutated product, the
warning flag, and the bounds on the requested quantity. -/
theorem stock_out_ok_inv (p : Product) (q : Int) (u : User) (n : Option String)
    (now : Int) (l : List Transaction) (t : Transaction) (w : Bool)
    (p' : Product) (l' : List Transaction)
    (h : stock_out p q u n now l = (Except.ok (t, w), p', l')) :
    0 < q ∧ q ≤ p.quantity
      ∧ p' = ⟨p.id, p.name, p.sku, p.quantity - q, p.expiry_date⟩
      ∧ w = decide (p.quantity - q ≤ 10) := by
  unfold stock_out Transaction.create_stock_out at h
  split_ifs at h with h1 h2 <;> simp_all

/-! ### The claims -/

/-- C1: for every item with quantity-on-hand `Q >= 0` and every requested
quantity `q > Q`, the stock-out operation fails with the insufficient-stock
error carrying both the available amount `Q` and the requested amount `q`,
both at the model layer (`Transaction.create_stock_out` raises the
`ValueError`) and at the route layer (`stock_out` returns the error, the
product's quantity is unchanged, and no ledger entry is created). -/
theorem stock_out_insufficient_stock (p : Product) (q : Int) (u : User)
    (n : Option String) (now : Int) (l : List Transaction)
    (hQ : 0 ≤ p.quantity) (h : p.quantity < q) :
    stock_out p q u n now l =
      (Except.error ("Insufficient stock. Available: " ++ toString p.quantity
        ++ ", Requested: " ++ toString q), p, l)
    ∧ Transaction.create_stock_out p q u n now =
      Except.error ("Insufficient stock. Available: " ++ toString p.quantity
        ++ ", Requested: " ++ toString q) := by
  have h1 : ¬ q ≤ 0 := by omega
  constructor
  · simp [stock_out, Transaction.create_stock_out, h1, h]
  · simp [Transaction.create_stock_out, h1, h]

/-- Witness for C1 at a concrete state: quantity 5, request 6. -/
theorem stock_out_insufficient_stock_witness :
    stock_out ⟨1, "Rice", "SKU1", 5, none⟩ 6 ⟨1, "alice"⟩ none 0 [] =
      (Except.error "Insufficient stock. Available: 5, Requested: 6",
       ⟨1, "Rice", "SKU1", 5, none⟩, []) :=
  (stock_out_insufficient_stock ⟨1, "Rice", "SKU1", 5, none⟩ 6 ⟨1, "alice"⟩
    none 0 [] (by decide) (by decide)).1

/-- C2: for every item and every positive quantity `q`, the stock-in
operation increases the item's quantity by exactly `q` and appends exactly
one ledger entry of kind `IN` with quantity `q`, attributed to the given
user with the given note. -/
theorem stock_in_adds_quantity_and_one_entry (p : Product) (q : Int)
    (u : User) (n : Option String) (now : Int) (l : List Transaction)
    (h : 0 < q) :
    stock_in p q u n now l =
      (Except.ok ⟨p.id, u.id, "IN", q, n, now⟩,
       ⟨p.id, p.name, p.sku, p.quantity + q, p.expiry_date⟩,
       l ++ [⟨p.id, u.id, "IN", q, n, now⟩]) := by
  have h1 : ¬ q ≤ 0 := not_le.mpr h
  simp [stock_in, Transaction.create_stock_in, h1]

/-- Witness for C2 at a concrete state: quantity 5, stock-in of 3. -/
theorem stock_in_adds_quantity_and_one_entry_witness :
    stock_in ⟨1, "Rice", "SKU1", 5, none⟩ 3 ⟨1, "alice"⟩ (some "refill") 0 [] =
      (Except.ok ⟨1, 1, "IN", 3, some "refill", 0⟩,
       ⟨1, "Rice", "SKU1", 8, none⟩,
       [⟨1, 1, "IN", 3, some "refill", 0⟩]) :=
  stock_in_adds_quantity_and_one_entry ⟨1, "Rice", "SKU1", 5, none⟩ 3
    ⟨1, "alice"⟩ (some "refill") 0 [] (by decide)

/-- C5: for every requested quantity `q <= 0`, both route handlers fail
with the invalid-quantity error and cause no state change, and both model
helpers raise their invalid-quantity `ValueError`. -/
theorem invalid_quantity_no_state_change (p : Product) (q : Int) (u : User)
    (n : Option String) (now : Int) (l : List Transaction) (h : q ≤ 0) :
    stock_in p q u n now l = (Except.error "Quantity must be positive", p, l)
    ∧ stock_out p q u n now l = (Except.error "Quantity must be positive", p, l)
    ∧ Transaction.create_stock_in p q u n now =
        Except.error "Added Quantity must be positive for STOCK IN"
    ∧ Transaction.create_stock_out p q u n now =
        Except.error "Quantity must be positive for STOCK OUT" := by
  refine ⟨?_, ?_, ?_, ?_⟩ <;>
    simp [stock_in, stock_out, Transaction.create_stock_in,
      Transaction.create_stock_out, h]

/-- Witness for C5 at a concrete state: requested quantity 0. -/
theorem invalid_quantity_no_state_change_witness :
    stock_in ⟨1, "Rice", "SKU1", 5, none⟩ 0 ⟨1, "alice"⟩ none 0 [] =
      (Except.error "Quantity must be positive", ⟨1, "Rice", "SKU1", 5, none⟩, [])
    ∧ stock_out ⟨1, "Rice", "SKU1", 5, none⟩ 0 ⟨1, "alice"⟩ none 0 [] =
      (Except.error "Quantity must be positive", ⟨1, "Rice", "SKU1", 5, none⟩, []) :=
  ⟨(invalid_quantity_no_state_change ⟨1, "Rice", "SKU1", 5, none⟩ 0 ⟨1, "alice"⟩
      none 0 [] (by decide)).1,
   (invalid_quantity_no_state_change ⟨1, "Rice", "SKU1", 5, none⟩ 0 ⟨1, "alice"⟩
      none 0 [] (by decide)).2.1⟩

/-- C6: a stock-out that brings the quantity to exactly 0 succeeds: for
every item with quantity `Q > 0`, removing exactly `Q` returns success, the
new quantity is 0, and the `OUT` ledger entry is created (the low-stock
warning is `true` since `0 <= 10`). -/
theorem stock_out_to_zero_is_valid (p : Product) (u : User)
    (n : Option String) (now : Int) (l : List Transaction)
    (h : 0 < p.quantity) :
    stock_out p p.quantity u n now l =
      (Except.ok (⟨p.id, u.id, "OUT", p.quantity, n, now⟩, true),
       ⟨p.id, p.name, p.sku, 0, p.expiry_date⟩,
       l ++ [⟨p.id, u.id, "OUT", p.quantity, n, now⟩]) := by
  have hs := stock_out_success p p.quantity u n now l h le_rfl
  simpa using hs

/-- Witness for C6 at a concrete state: quantity 5, stock-out of 5. -/
theorem stock_out_to_zero_is_valid_witness :
    stock_out ⟨1, "Rice", "SKU1", 5, none⟩ 5 ⟨1, "alice"⟩ none 0 [] =
      (Except.ok (⟨1, 1, "OUT", 5, none, 0⟩, true),
       ⟨1, "Rice", "SKU1", 0, none⟩, [⟨1, 1, "OUT", 5, none, 0⟩]) :=
  stock_out_to_zero_is_valid ⟨1, "Rice", "SKU1", 5, none⟩ ⟨1, "alice"⟩
    none 0 [] (by decide)

/-- C3 counterexample: the low-stock warning returned by the stock-out
route is not a function of a caller-configurable threshold.  Reading the
claim with a caller-chosen threshold of 5: a stock-out leaving quantity 7
would have to report `7 <= 5 = false`, but the route unconditionally
computes the warning against the literal 10 and reports `true`. -/
theorem low_stock_threshold_not_caller_configurable :
    ¬ (∀ (lowStockThreshold : Int) (p : Product) (q : Int) (u : User)
        (n : Option String) (now : Int) (l : List Transaction)
        (t : Transaction) (w : Bool) (p' : Product) (l' : List Transaction),
        stock_out p q u n now l = (Except.ok (t, w), p', l') →
        w = decide (p'.quantity ≤ lowStockThreshold)) := by
  intro hclaim
  have h := hclaim 5 ⟨1, "Rice", "SKU1", 12, none⟩ 5 ⟨1, "alice"⟩ none 0 []
    ⟨1, 1, "OUT", 5, none, 0⟩ true ⟨1, "Rice", "SKU1", 7, none⟩
    [⟨1, 1, "OUT", 5, none, 0⟩] rfl
  exact absurd h (by decide)

/-- C3 as amended: for every successful stock-out, the returned
`low_stock_warning` equals `newQuantity <= 10` — equivalently
`Product.is_low_stock` at its default threshold 10 — with the threshold
hardcoded to the literal 10 in the route (not caller-configurable); a
resulting quantity of exactly 10 yields `true` and 11 yields `false`. -/
theorem stock_out_low_stock_warning (p : Product) (q : Int) (u : User)
    (n : Option String) (now : Int) (l : List Transaction) (t : Transaction)
    (w : Bool) (p' : Product) (l' : List Transaction)
    (h : stock_out p q u n now l = (Except.ok (t, w), p', l')) :
    w = p'.is_low_stock 10 ∧ w = decide (p'.quantity ≤ 10)
      ∧ (p'.quantity = 10 → w = true) ∧ (p'.quantity = 11 → w = false) := by
  obtain ⟨hq, hle, hp', hw⟩ := stock_out_ok_inv p q u n now l t w p' l' h
  subst hp' hw
  refine ⟨by simp [Product.is_low_stock], rfl, ?_, ?_⟩
  · intro h10
    simp only at h10
    simp [h10]
  · intro h11
    simp only at h11
    simp [h11]

/-- Witness for the amended C3 at a concrete state: quantity 15, stock-out
of 5 leaves exactly the threshold quantity 10 and warns. -/
theorem stock_out_low_stock_warning_witness :
    true = Product.is_low_stock ⟨1, "Rice", "SKU1", 10, none⟩ 10
    ∧ true = decide ((⟨1, "Rice", "SKU1", 10, none⟩ : Product).quantity ≤ 10)
    ∧ ((⟨1, "Rice", "SKU1", 10, none⟩ : Product).quantity = 10 → true = true)
    ∧ ((⟨1, "Rice", "SKU1", 10, none⟩ : Product).quantity = 11 → true = false) :=
  stock_out_low_stock_warning ⟨1, "Rice", "SKU1", 15, none⟩ 5 ⟨1, "alice"⟩
    none 0 [] ⟨1, 1, "OUT", 5, none, 0⟩ true ⟨1, "Rice", "SKU1", 10, none⟩
    [⟨1, 1, "OUT", 5, none, 0⟩] rfl

/-- C4: quantity-on-hand never becomes negative.  If an item's quantity is
non-negative, then after a stock-in or a stock-out — whether it succeeds or
fails — the resulting product state still has non-negative quantity. -/
theorem quantity_never_negative (p : Product) (q : Int) (u : User)
    (n : Option String) (now : Int) (l : List Transaction)
    (h : 0 ≤ p.quantity) :
    0 ≤ (stock_in p q u n now l).2.1.quantity
    ∧ 0 ≤ (stock_out p q u n now l).2.1.quantity := by
  constructor
  · unfold stock_in Transaction.create_stock_in
    split_ifs with h1 <;> simp <;> omega
  · unfold stock_out Transaction.create_stock_out
    split_ifs with h1 h2 <;> simp <;> omega

/-- Witness for C4 at a concrete state: quantity 5, movements of 3. -/
theorem quantity_never_negative_witness :
    0 ≤ (stock_in ⟨1, "Rice", "SKU1", 5, none⟩ 3 ⟨1, "alice"⟩
          none 0 []).2.1.quantity
    ∧ 0 ≤ (stock_out ⟨1, "Rice", "SKU1", 5, none⟩ 3 ⟨1, "alice"⟩
          none 0 []).2.1.quantity :=
  quantity_never_negative ⟨1, "Rice", "SKU1", 5, none⟩ 3 ⟨1, "alice"⟩
    none 0 [] (by decide)

/-- C7: failure is idempotent.  Whenever a stock-in or stock-out call
fails, the returned state equals the input state, and repeating the same
call on that state produces the same error and again the same state — so
two failing calls have no cumulative side effect. -/
theorem failing_operation_idempotent (p : Product) (q : Int) (u : User)
    (n : Option String) (now : Int) (l : List Transaction) :
    (∀ e p' l', stock_in p q u n now l = (Except.error e, p', l') →
      p' = p ∧ l' = l ∧ stock_in p' q u n now l' = (Except.error e, p', l'))
    ∧ (∀ e p' l', stock_out p q u n now l = (Except.error e, p', l') →
      p' = p ∧ l' = l ∧ stock_out p' q u n now l' = (Except.error e, p', l')) := by
  constructor
  · intro e p' l' h
    unfold stock_in Transaction.create_stock_in at h
    split_ifs at h with h1
    · simp only [Prod.mk.injEq, Except.error.injEq] at h
      obtain ⟨he, hp, hl⟩ := h
      subst he hp hl
      exact ⟨rfl, rfl, by simp [stock_in, h1]⟩
    · simp at h
  · intro e p' l' h
    unfold stock_out Transaction.create_stock_out at h
    split_ifs at h with h1 h2
    · simp only [Prod.mk.injEq, Except.error.injEq] at h
      obtain ⟨he, hp, hl⟩ := h
      subst he hp hl
      exact ⟨rfl, rfl, by simp [stock_out, h1]⟩
    · simp only [Prod.mk.injEq, Except.error.injEq] at h
      obtain ⟨he, hp, hl⟩ := h
      subst he hp hl
      exact ⟨rfl, rfl, by simp [stock_out, Transaction.create_stock_out, h1, h2]⟩
    · simp at h

/-- Witness for C7 at a concrete state: a stock-in of 0 fails and repeating
it returns the identical error and state. -/
theorem failing_operation_idempotent_witness :
    (⟨1, "Rice", "SKU1", 5, none⟩ : Product) = ⟨1, "Rice", "SKU1", 5, none⟩
    ∧ ([] : List Transaction) = []
    ∧ stock_in ⟨1, "Rice", "SKU1", 5, none⟩ 0 ⟨1, "alice"⟩ none 0 [] =
        (Except.error "Quantity must be positive",
         ⟨1, "Rice", "SKU1", 5, none⟩, []) :=
  (failing_operation_idempotent ⟨1, "Rice", "SKU1", 5, none⟩ 0 ⟨1, "alice"⟩
    none 0 []).1 "Quantity must be positive" ⟨1, "Rice", "SKU1", 5, none⟩ [] rfl

/-- C9: `is_expired` is true exactly when an expiry date is set and lies
strictly before the current date, and items without an expiry date are
never expired, whatever the current date. -/
theorem is_expired_spec (p : Product) (today : Int) :
    (p.is_expired today = true ↔ ∃ d, p.expiry_date = some d ∧ d < today)
    ∧ (p.expiry_date = none → p.is_expired today = false) := by
  cases hp : p.expiry_date <;> simp [Product.is_expired, hp]

/-- Witness for C9: an item with no expiry date is not expired. -/
theorem is_expired_spec_witness :
    Product.is_expired ⟨1, "Rice", "SKU1", 5, none⟩ 99999 = false :=
  (is_expired_spec ⟨1, "Rice", "SKU1", 5, none⟩ 99999).2 rfl

/-- Helper: composing the date-range filter with the type filter equals a
single filter on the conjunction of both conditions. -/
theorem filter_range_type (l : List Transaction) (fd td : Int) (ty : String) :
    (l.filter (fun t => decide (fd ≤ t.date) && decide (t.date ≤ td))).filter
        (fun t => t.type == ty)
      = l.filter (fun t => decide ((fd ≤ t.date ∧ t.date ≤ td) ∧ t.type = ty)) := by
  rw [List.filter_filter]
  apply List.filter_congr
  intro t _
  by_cases h1 : t.type = ty <;> by_cases h2 : fd ≤ t.date <;>
    by_cases h3 : t.date ≤ td <;> simp [h1, h2, h3]

/-- C8: the statistics aggregation considers exactly the ledger entries
with timestamp in the inclusive range `[from_date, to_date]` and returns
the total entry count, the count and summed quantity of `IN` entries and
of `OUT` entries; a range containing no entries yields all-zero counts;
and the spec's concrete scenario (IN 10, 20, 5 and OUT 3, 4) yields total
5, in-count 3 with quantity 35, out-count 2 with quantity 7. -/
theorem aggregate_movements_spec (l : List Transaction) (fd td : Int) :
    (get_transaction_stats l fd td).total_transactions
        = l.countP (fun t => decide (fd ≤ t.date ∧ t.date ≤ td))
    ∧ (get_transaction_stats l fd td).stock_in_count
        = l.countP (fun t => decide ((fd ≤ t.date ∧ t.date ≤ td) ∧ t.type = "IN"))
    ∧ (get_transaction_stats l fd td).stock_out_count
        = l.countP (fun t => decide ((fd ≤ t.date ∧ t.date ≤ td) ∧ t.type = "OUT"))
    ∧ (get_transaction_stats l fd td).stock_in_quantity
        = ((l.filter (fun t =>
            decide ((fd ≤ t.date ∧ t.date ≤ td) ∧ t.type = "IN"))).map
              Transaction.quantity).sum
    ∧ (get_transaction_stats l fd td).stock_out_quantity
        = ((l.filter (fun t =>
            decide ((fd ≤ t.date ∧ t.date ≤ td) ∧ t.type = "OUT"))).map
              Transaction.quantity).sum
    ∧ ((∀ t ∈ l, ¬ (fd ≤ t.date ∧ t.date ≤ td)) →
        get_transaction_stats l fd td = ⟨0, 0, 0, 0, 0⟩)
    ∧ get_transaction_stats
        [⟨1, 1, "IN", 10, none, 1⟩, ⟨1, 1, "IN", 20, none, 2⟩,
         ⟨1, 1, "IN", 5, none, 3⟩, ⟨1, 1, "OUT", 3, none, 4⟩,
         ⟨1, 1, "OUT", 4, none, 5⟩] 0 100 = ⟨5, 3, 35, 2, 7⟩ := by
  refine ⟨?_, ?_, ?_, ?_, ?_, ?_, ?_⟩
  · simp [get_transaction_stats, List.countP_eq_length_filter, Bool.decide_and]
  · rw [get_transaction_stats, List.countP_eq_length_filter,
      filter_range_type l fd td "IN"]
  · rw [get_transaction_stats, List.countP_eq_length_filter,
      filter_range_type l fd td "OUT"]
  · rw [get_transaction_stats, filter_range_type l fd td "IN"]
  · rw [get_transaction_stats, filter_range_type l fd td "OUT"]
  · intro hz
    have hnil : l.filter (fun t => decide (fd ≤ t.date) && decide (t.date ≤ td))
        = [] :=
      List.filter_eq_nil_iff.mpr (fun a ha => by simpa using hz a ha)
    simp [get_transaction_stats, hnil]
  · rfl

/-- Witness for C8's all-zero conclusion: a singleton ledger whose entry
lies outside the queried range aggregates to all zeros. -/
theorem aggregate_movements_spec_witness :
    get_transaction_stats [⟨1, 1, "IN", 10, none, 200⟩] 0 100 = ⟨0, 0, 0, 0, 0⟩ :=
  (aggregate_movements_spec [⟨1, 1, "IN", 10, none, 200⟩] 0 100).2.2.2.2.2.1
    (by decide)

/-- Helper: the missing-field predicate of `validate_required_fields` is
false exactly when the field maps to a value that is neither null nor the
empty string. -/
theorem field_pred_false_iff (d : List (String × JValue)) (f : String) :
    ((match d.lookup f with
      | none => true
      | some v => v == JValue.null || v == JValue.str "") = false)
      ↔ ∃ v, d.lookup f = some v ∧ v ≠ JValue.null ∧ v ≠ JValue.str "" := by
  cases h : d.lookup f <;> simp [h]

/-- Helper: the missing-field predicate is true exactly when every value
the field maps to (if any) is null or the empty string — covering the
absent-key case vacuously. -/
theorem field_pred_true_iff (d : List (String × JValue)) (f : String) :
    ((match d.lookup f with
      | none => true
      | some v => v == JValue.null || v == JValue.str "") = true)
      ↔ ∀ v, d.lookup f = some v → v = JValue.null ∨ v = JValue.str "" := by
  cases h : d.lookup f <;> simp [h]

/-- C10: for non-empty data, `validate_required_fields` is valid exactly
when every required field is a key whose value is neither `None` nor the
empty string; the missing list contains exactly the violating required
fields and is a sublist of (hence in the order of) `required_fields`; and
for `None` or empty data it returns `(false, required_fields)`. -/
theorem validate_required_fields_spec (data : List (String × JValue))
    (required_fields : List String) (hne : data ≠ []) :
    ((validate_required_fields (some data) required_fields).1 = true ↔
      ∀ f ∈ required_fields, ∃ v, data.lookup f = some v
        ∧ v ≠ JValue.null ∧ v ≠ JValue.str "")
    ∧ (∀ f, f ∈ (validate_required_fields (some data) required_fields).2 ↔
        f ∈ required_fields ∧
          ∀ v, data.lookup f = some v → v = JValue.null ∨ v = JValue.str "")
    ∧ (validate_required_fields (some data) required_fields).2.Sublist
        required_fields
    ∧ validate_required_fields none required_fields = (false, required_fields)
    ∧ validate_required_fields (some []) required_fields =
        (false, required_fields) := by
  have hde : data.isEmpty = false := by
    cases data with
    | nil => exact absurd rfl hne
    | cons a as => rfl
  refine ⟨?_, ?_, ?_, rfl, rfl⟩
  · simp only [validate_required_fields, hde, Bool.false_eq_true, if_false,
      List.isEmpty_iff, List.filter_eq_nil_iff, Bool.not_eq_true]
    exact forall₂_congr fun f _ => field_pred_false_iff data f
  · intro f
    simp only [validate_required_fields, hde, Bool.false_eq_true, if_false,
      List.mem_filter]
    exact and_congr_right fun _ => field_pred_true_iff data f
  · simp only [validate_required_fields, hde, Bool.false_eq_true, if_false]
    exact List.filter_sublist required_fields

/-- Witness for C10 on the docstring's own example: data with `name` and
`price` but not `quantity`; the missing list is a sublist of the required
fields and equals exactly the violating field. -/
theorem validate_required_fields_spec_witness :
    (validate_required_fields
        (some [("name", JValue.str "Milk"), ("price", JValue.num 60)])
        ["name", "price", "quantity"]).2.Sublist
      ["name", "price", "quantity"] :=
  (validate_required_fields_spec
    [("name", JValue.str "Milk"), ("price", JValue.num 60)]
    ["name", "price", "quantity"] (by decide)).2.2.1

end Grocery
